import Mathlib

set_option maxRecDepth 16000

/-
Verification of the llmcompare provider/dispatch layer.

This file shallowly embeds the core of `src/llmprovider/` (the provider
adapters, the model catalog and the dispatch service `LLMService`) in Lean
and proves or refutes the spec claims about it.

Conventions of the embedding:
  * Python dicts with a fixed key set become structures; optional keys
    become `Option` fields (`none` = key absent).
  * Python exceptions raised by an adapter become an explicit outcome sum
    type `AdapterOutcome`; the `except` clauses of `LLMService.call_model`
    become a `match` on that type, in the source's clause order.
  * The process environment becomes a function `String → Option String`.
  * Dict merging (`dict.update`) becomes `dictUpdate` on association
    lists, with lookup semantics proved below.
  * The number of outbound network calls an invocation makes is returned
    alongside the result (the adapter performs exactly one call when
    invoked; the missing-key early return performs none).
-/

namespace LLMCompare

/-- The `error_type` values that `LLMService.call_model` can place in a
result dictionary (they are string literals in the Python source). -/
inductive ErrorType where
  | missing_api_key
  | api_error
  | timeout
  | openai_api_error
  | google_api_error
  | unknown_error
  deriving DecidableEq, Repr

/-- A model-configuration entry, as stored in the per-provider model
tables (`name`, `provider`, `endpoint`, `api_key_env`). -/
structure ModelInfo where
  name : String
  provider : String
  endpoint : String
  api_key_env : String
  deriving DecidableEq, Repr

/-- A usage mapping: token-count fields keyed by name. -/
abbrev Usage := List (String × Nat)

/-- The result dictionary built by `LLMService.call_model`.
`usage = none` / `error_type = none` mean the key is absent from the
Python dict (success results carry `usage` and no `error_type`; error
results carry `error_type` and no `usage`). -/
structure CallResult where
  model_name : String
  provider : String
  response : String
  timestamp : String
  status : String
  usage : Option Usage
  error_type : Option ErrorType
  deriving DecidableEq, Repr

/-- The process environment: credential variables by name. -/
def Env := String → Option String

/-- Python truthiness of `os.getenv(v)`: the variable is present and
non-empty (`if not api_key` treats `None` and `""` alike). -/
def keyPresent (env : Env) (v : String) : Bool :=
  match env v with
  | none => false
  | some s => s ≠ ""

/-- Every outcome of the provider-adapter invocation inside the `try`
block of `call_model`, partitioned exactly as its `except` clauses do:
a normal return, `requests.exceptions.HTTPError` (carrying the HTTP
status code and response body), `requests.exceptions.Timeout`, one of
the OpenAI SDK error classes, or any other raised exception. -/
inductive AdapterOutcome where
  | ok (content : String) (usage : Usage)
  | httpError (statusCode : Nat) (bodyText : String)
  | timedOut
  | sdkError (msg : String)
  | raised (msg : String)
  deriving DecidableEq, Repr

/-- Python `needle in haystack` for strings: `needle` occurs as a
contiguous substring of `haystack`. -/
def strContains (haystack needle : String) : Bool :=
  haystack.data.tails.any fun t => needle.data.isPrefixOf t

/-- `LLMService._error_response`: the standardized error dictionary
(no `usage` key). -/
def errorResponse (mi : ModelInfo) (now msg : String) (k : ErrorType) : CallResult :=
  { model_name := mi.name
    provider := mi.provider
    response := msg
    timestamp := now
    status := "error"
    usage := none
    error_type := some k }

/-- The provider registry of `LLMService.__init__`. -/
def knownProviders : List String := ["OpenAI", "Anthropic", "Google", "xAI"]

/-- `LLMService.call_model`, embedded.  `now` stands for
`datetime.now().isoformat()`; `adapter` is the outcome the provider
adapter would produce if invoked.  The second component counts outbound
network calls: `0` on the missing-key early return and on the
unknown-provider `ValueError` (raised by `get_provider` before any
adapter call, then caught by the final `except` clauses), `1` whenever
the adapter is actually invoked. -/
def call_model (env : Env) (mi : ModelInfo) (now : String)
    (adapter : AdapterOutcome) : CallResult × Nat :=
  if keyPresent env mi.api_key_env = false then
    (errorResponse mi now
      ("API key not set. Please set " ++ mi.api_key_env ++ " in your .env file.")
      .missing_api_key, 0)
  else if mi.provider ∉ knownProviders then
    -- `get_provider` raises `ValueError(f"Unknown provider: ...")` inside
    -- the `try`; it reaches the generic `except Exception` clause.
    (if strContains mi.provider "Google" then
      errorResponse mi now ("Google API Error: Unknown provider: " ++ mi.provider)
        .google_api_error
    else
      errorResponse mi now ("Unexpected error: Unknown provider: " ++ mi.provider)
        .unknown_error, 0)
  else
    match adapter with
    | .ok content usage =>
        ({ model_name := mi.name
           provider := mi.provider
           response := content
           timestamp := now
           status := "success"
           usage := some usage
           error_type := none }, 1)
    | .httpError code body =>
        (errorResponse mi now
          ("API Error: " ++ toString code ++ " - " ++ body.take 200)
          .api_error, 1)
    | .timedOut =>
        (errorResponse mi now "Request timed out. Please try again." .timeout, 1)
    | .sdkError m =>
        (errorResponse mi now ("OpenAI API Error: " ++ m) .openai_api_error, 1)
    | .raised m =>
        (if strContains mi.provider "Google" then
          errorResponse mi now ("Google API Error: " ++ m) .google_api_error
        else
          errorResponse mi now ("Unexpected error: " ++ m) .unknown_error, 1)

/-
OpenAI adapter, `responses` endpoint branch
(`src/llmprovider/openai_provider.py`, `OpenAIProvider.call_api`).
Only the response-parsing part matters for the claims: the SDK call is
represented by its decoded reply (`response.model_dump()`).
-/

/-- One element of `output[0]['content']`: a part dict whose `type` and
`text` keys may be absent. -/
structure RPart where
  type : Option String
  text : Option String
  deriving DecidableEq, Repr

/-- One element of the reply's `output` list; its `content` key may be
absent (`output[0].get('content', [])`). -/
structure ROutputItem where
  content : Option (List RPart)
  deriving DecidableEq, Repr

/-- A decoded reply of the OpenAI `responses` endpoint: the `output`
list (missing key decoded as `[]`) and the `usage` mapping (missing key
decoded as `{}`). -/
structure RResponse where
  output : List ROutputItem
  usage : Usage
  deriving DecidableEq, Repr

/-- `part.get('type') in {'output_text', 'text'}`. -/
def isTextualPart (p : RPart) : Bool :=
  match p.type with
  | some t => t = "output_text" || t = "text"
  | none => false

/-- `''.join(part.get('text', '') for part in content_parts if
part.get('type') in {'output_text', 'text'})`. -/
def concatTextual (parts : List RPart) : String :=
  String.join (parts.filterMap fun p =>
    if isTextualPart p then some (p.text.getD "") else none)

/-- The parsing of the `responses`-endpoint reply in
`OpenAIProvider.call_api`: raises `ValueError` (here `.error`) when
`output` is empty or the first output item carries no content parts;
otherwise concatenates the textual parts, falling back to the first
part's `text` when that concatenation is empty (`if not text`). -/
def openai_responses_parse (r : RResponse) : Except String (String × Usage) :=
  match r.output with
  | [] => .error "No output returned from OpenAI responses API"
  | item :: _ =>
    match item.content.getD [] with
    | [] => .error "OpenAI responses output missing content"
    | p0 :: ps =>
      let text := concatTextual (p0 :: ps)
      .ok (if text = "" then p0.text.getD "" else text, r.usage)

/-
Anthropic adapter (`src/llmprovider/anthropic_provider.py`,
`AnthropicProvider.call_api`), represented by its decoded reply.
-/

/-- A block of the Anthropic reply's `content` list; `text = none` means
the block has no `text` attribute (`hasattr(block, 'text')`). -/
structure ABlock where
  text : Option String
  deriving DecidableEq, Repr

/-- The Anthropic reply's `usage` object (`input_tokens`,
`output_tokens`). -/
structure AUsage where
  input_tokens : Nat
  output_tokens : Nat
  deriving DecidableEq, Repr

/-- A decoded Anthropic message: `content = none` models a `None`
content attribute (falsy in `if message.content:`), `usage = none`
models `hasattr(message, 'usage')` being false. -/
structure AMessage where
  content : Option (List ABlock)
  usage : Option AUsage
  deriving DecidableEq, Repr

/-- The text-extraction loop of `AnthropicProvider.call_api`:
`content_text += block.text` over the blocks having a `text`
attribute, guarded by `if message.content:`. -/
def anthropicContentText (m : AMessage) : String :=
  match m.content with
  | none => ""
  | some blocks =>
      blocks.foldl (fun acc b =>
        match b.text with
        | some t => acc ++ t
        | none => acc) ""

/-- The return value of `AnthropicProvider.call_api`: the extracted
content and the synthesized usage dict with keys `prompt_tokens`,
`completion_tokens`, `total_tokens` (all `0` when the message has no
`usage` attribute). -/
def anthropic_call_api (m : AMessage) : String × Usage :=
  (anthropicContentText m,
   [("prompt_tokens", match m.usage with | some u => u.input_tokens | none => 0),
    ("completion_tokens", match m.usage with | some u => u.output_tokens | none => 0),
    ("total_tokens", match m.usage with | some u => u.input_tokens + u.output_tokens | none => 0)])

/-
The model catalog: per-provider `get_models` and
`LLMService.get_available_models` (`src/llmprovider/service.py`).
-/

/-- Association-list lookup with Python-dict key semantics (first match;
the tables below keep at most one entry per key). -/
def dlookup (k : String) : List (String × ModelInfo) → Option ModelInfo
  | [] => none
  | (a, b) :: t => if a = k then some b else dlookup k t

/-- Python `dict.update`: entries of `e` override entries of `d`. -/
def dictUpdate (d e : List (String × ModelInfo)) : List (String × ModelInfo) :=
  (d.filter fun p => dlookup p.1 e = none) ++ e

/-- The catalog entry `OpenAIProvider.get_models` builds for a
discovered model id: the `responses` endpoint for the
`responses_models` set `{"gpt-4o", "o3-mini"}`, the legacy
`chat/completions` endpoint otherwise. -/
def openaiModelEntry (id : String) : ModelInfo :=
  { name := id
    provider := "OpenAI"
    endpoint := if id = "gpt-4o" ∨ id = "o3-mini" then "responses" else "chat/completions"
    api_key_env := "OPENAI_API_KEY" }

/-- The chat-capable filter of `OpenAIProvider.get_models`:
`model.id.startswith("gpt") or model.id.startswith("o3-")` (prefix
tests written on the character lists). -/
def isChatCapable (id : String) : Bool :=
  "gpt".data.isPrefixOf id.data || "o3-".data.isPrefixOf id.data

/-- Outcome of the live `client.models.list()` discovery call: either
the list of returned model ids, or an OpenAI SDK error. -/
inductive DiscoveryOutcome where
  | success (ids : List String)
  | sdkFailure
  deriving DecidableEq, Repr

/-- The hardcoded last-resort table at the end of
`OpenAIProvider.get_models`. -/
def openaiHardcodedModels : List (String × ModelInfo) :=
  [("gpt-3.5-turbo",
    { name := "gpt-3.5-turbo", provider := "OpenAI",
      endpoint := "chat/completions", api_key_env := "OPENAI_API_KEY" }),
   ("gpt-4",
    { name := "gpt-4", provider := "OpenAI",
      endpoint := "chat/completions", api_key_env := "OPENAI_API_KEY" })]

/-- `OpenAIProvider.get_models`: live discovery (skipped for the literal
key `"dummy_key"`), filtered to chat-capable ids; on SDK failure, the
`available_models` constructor argument filtered to provider `OpenAI`
(if non-empty), else the hardcoded last-resort table.  `LLMService`
constructs the provider without `available_models`, so that argument is
`[]` on the service path. -/
def openai_get_models (api_key : String) (disc : DiscoveryOutcome)
    (available_models : List (String × ModelInfo)) : List (String × ModelInfo) :=
  let fallback :=
    let cfg := available_models.filter fun p => p.2.provider = "OpenAI"
    if cfg ≠ [] then cfg else openaiHardcodedModels
  if api_key ≠ "dummy_key" then
    match disc with
    | .success ids =>
        (ids.filter isChatCapable).map fun id => (id, openaiModelEntry id)
    | .sdkFailure => fallback
  else fallback

/-- The static table returned by `AnthropicProvider.get_models`. -/
def anthropic_models : List (String × ModelInfo) :=
  [("claude-3-5-sonnet-20241022",
    { name := "Claude 3.5 Sonnet", provider := "Anthropic",
      endpoint := "https://api.anthropic.com/v1/messages", api_key_env := "ANTHROPIC_API_KEY" }),
   ("claude-3-5-haiku-20241022",
    { name := "Claude 3.5 Haiku", provider := "Anthropic",
      endpoint := "https://api.anthropic.com/v1/messages", api_key_env := "ANTHROPIC_API_KEY" }),
   ("claude-3-opus-20240229",
    { name := "Claude 3 Opus", provider := "Anthropic",
      endpoint := "https://api.anthropic.com/v1/messages", api_key_env := "ANTHROPIC_API_KEY" }),
   ("claude-3-sonnet-20240229",
    { name := "Claude 3 Sonnet", provider := "Anthropic",
      endpoint := "https://api.anthropic.com/v1/messages", api_key_env := "ANTHROPIC_API_KEY" }),
   ("claude-3-haiku-20240307",
    { name := "Claude 3 Haiku", provider := "Anthropic",
      endpoint := "https://api.anthropic.com/v1/messages", api_key_env := "ANTHROPIC_API_KEY" })]

/-- The static table returned by `GoogleProvider.get_models`
(`src/llmprovider/google_provider.py`): four Gemini models; the method
takes no input and performs no discovery call. -/
def google_get_models : List (String × ModelInfo) :=
  [("gemini-2.0-flash-exp",
    { name := "Gemini 2.0 Flash (Experimental)", provider := "Google",
      endpoint := "https://generativelanguage.googleapis.com/v1beta/models/gemini-2.0-flash-exp:generateContent",
      api_key_env := "GEMINI_API_KEY" }),
   ("gemini-1.5-pro",
    { name := "Gemini 1.5 Pro", provider := "Google",
      endpoint := "https://generativelanguage.googleapis.com/v1beta/models/gemini-1.5-pro:generateContent",
      api_key_env := "GEMINI_API_KEY" }),
   ("gemini-1.5-flash",
    { name := "Gemini 1.5 Flash", provider := "Google",
      endpoint := "https://generativelanguage.googleapis.com/v1beta/models/gemini-1.5-flash:generateContent",
      api_key_env := "GEMINI_API_KEY" }),
   ("gemini-1.0-pro",
    { name := "Gemini 1.0 Pro", provider := "Google",
      endpoint := "https://generativelanguage.googleapis.com/v1beta/models/gemini-1.0-pro:generateContent",
      api_key_env := "GEMINI_API_KEY" })]

/-- The static table returned by `xAIProvider.get_models`. -/
def xai_models : List (String × ModelInfo) :=
  [("grok-4",
    { name := "Grok 4", provider := "xAI",
      endpoint := "https://api.x.ai/v1/chat/completions", api_key_env := "XAI_API_KEY" }),
   ("grok-3",
    { name := "Grok 3", provider := "xAI",
      endpoint := "https://api.x.ai/v1/chat/completions", api_key_env := "XAI_API_KEY" }),
   ("grok-3-mini",
    { name := "Grok 3 Mini", provider := "xAI",
      endpoint := "https://api.x.ai/v1/chat/completions", api_key_env := "XAI_API_KEY" })]

/-- Python `str.upper()`, written on the character list. -/
def pyUpper (s : String) : String :=
  ⟨s.data.map Char.toUpper⟩

/-- The credential variable `LLMService` reads for a provider:
`f"{provider_name.upper()}_API_KEY"`, overridden to `GEMINI_API_KEY`
for Google and `XAI_API_KEY` for xAI. -/
def envKeyFor (provider_name : String) : String :=
  if provider_name = "Google" then "GEMINI_API_KEY"
  else if provider_name = "xAI" then "XAI_API_KEY"
  else pyUpper provider_name ++ "_API_KEY"

/-- `provider.get_models()` as invoked from `LLMService` (which passes
only the api key to the provider constructor, so OpenAI's
`available_models` fallback is empty on this path). -/
def modelsForProvider (p : String) (api_key : String)
    (disc : DiscoveryOutcome) : List (String × ModelInfo) :=
  if p = "OpenAI" then openai_get_models api_key disc []
  else if p = "Anthropic" then anthropic_models
  else if p = "Google" then google_get_models
  else if p = "xAI" then xai_models
  else []

/-- `LLMService.get_available_models`: iterate the provider registry in
insertion order, and for each provider whose credential variable is set
(and truthy) merge its `get_models()` result into the accumulated dict.
`disc` is the outcome the OpenAI live discovery call would have. -/
def get_available_models (env : Env) (disc : DiscoveryOutcome) :
    List (String × ModelInfo) :=
  knownProviders.foldl (fun acc p =>
    if keyPresent env (envKeyFor p) then
      dictUpdate acc (modelsForProvider p ((env (envKeyFor p)).getD "") disc)
    else acc) []

/-
Claim-level definitions: the spec's catalog property, the spec's claimed
Google discovery behavior, and concrete inputs used in witnesses and
counterexamples.
-/

/-- Membership of a model id `m` under provider `p` in a catalog dict. -/
def memCatalog (d : List (String × ModelInfo)) (m p : String) : Prop :=
  ∃ info, dlookup m d = some info ∧ info.provider = p

/-- The spec's "live discovery call for P returns M": only OpenAI has a
live discovery call on this code base. -/
def liveReturns (disc : DiscoveryOutcome) (p m : String) : Prop :=
  p = "OpenAI" ∧ ∃ ids, disc = .success ids ∧ m ∈ ids

/-- The model ids each provider's static configuration lists: the
provider-local static tables (for OpenAI, the hardcoded last-resort
table, since the service path passes no config table). -/
def staticConfigIds (p : String) : List String :=
  if p = "OpenAI" then openaiHardcodedModels.map Prod.fst
  else if p = "Anthropic" then anthropic_models.map Prod.fst
  else if p = "Google" then google_get_models.map Prod.fst
  else if p = "xAI" then xai_models.map Prod.fst
  else []

/-- The catalog-membership property exactly as claim C3 states it:
`M` appears under `P` iff `P`'s credential is configured and (live
discovery returns `M` or static config lists `M` under `P`). -/
def claimC3Property (env : Env) (disc : DiscoveryOutcome) : Prop :=
  ∀ p ∈ knownProviders, ∀ m : String,
    memCatalog (get_available_models env disc) m p ↔
      (keyPresent env (envKeyFor p) = true ∧ (liveReturns disc p m ∨ m ∈ staticConfigIds p))

/-- The model ids provider `p` actually contributes to the catalog when
its credential holds the value `key`: OpenAI uses the filtered live
discovery result when the key is not the literal `"dummy_key"` and the
discovery call succeeds, and the hardcoded static table otherwise; the
other three providers always use their static tables. -/
def resolvedIds (p key : String) (disc : DiscoveryOutcome) : List String :=
  if p = "OpenAI" then
    if key ≠ "dummy_key" then
      match disc with
      | .success ids => ids.filter isChatCapable
      | .sdkFailure => openaiHardcodedModels.map Prod.fst
    else openaiHardcodedModels.map Prod.fst
  else staticConfigIds p

/-- A model record as a hypothetical Google "list models" discovery call
would return it: an id plus the list of capability names it declares. -/
structure GModel where
  id : String
  supported_methods : List String
  deriving DecidableEq, Repr

/-- The behavior claim C6 ascribes to `GoogleProvider.get_models`,
written from the spec's words: with a configured credential, attempt a
live "list models" call, keep the models whose declared capabilities
include generate content, and fall back to the static table only when
the live call fails.  (The source contains no such code: its
`get_models` consults no discovery call at all.) -/
def googleDiscoverySpec (disc : Option (List GModel)) : List (String × ModelInfo) :=
  match disc with
  | some ms =>
      (ms.filter fun gm => "generateContent" ∈ gm.supported_methods).map fun gm =>
        (gm.id,
         { name := gm.id, provider := "Google",
           endpoint := "https://generativelanguage.googleapis.com/v1beta/models/"
             ++ gm.id ++ ":generateContent",
           api_key_env := "GEMINI_API_KEY" })
  | none => google_get_models

/-- An environment with only the OpenAI credential configured. -/
def envO : Env := fun v => if v = "OPENAI_API_KEY" then some "sk-test" else none

/-- An environment with only the Google credential configured. -/
def envG : Env := fun v => if v = "GEMINI_API_KEY" then some "g-key" else none

/-- An environment with no credential configured at all. -/
def envNone : Env := fun _ => none

/-- The catalog entry of `gemini-1.5-pro`, as a dispatch input. -/
def miGemini : ModelInfo :=
  { name := "Gemini 1.5 Pro"
    provider := "Google"
    endpoint := "https://generativelanguage.googleapis.com/v1beta/models/gemini-1.5-pro:generateContent"
    api_key_env := "GEMINI_API_KEY" }

/-- A discovered `gpt-4o` catalog entry, as a dispatch input. -/
def miGPT : ModelInfo :=
  { name := "gpt-4o"
    provider := "OpenAI"
    endpoint := "responses"
    api_key_env := "OPENAI_API_KEY" }

/-- A responses-endpoint reply whose only content part declares a
non-textual type but still carries a `text` value. -/
def rRefusal : RResponse :=
  { output := [{ content := some [{ type := some "refusal", text := some "I refuse" }] }]
    usage := [] }

/-- A responses-endpoint reply with two textual parts `"Hello, "` and
`"world"`. -/
def rHello : RResponse :=
  { output := [{ content := some (
      [{ type := some "text", text := some "Hello, " },
       { type := some "output_text", text := some "world" }]) }]
    usage := [("total_tokens", 7)] }

/-
Helper lemmas.
-/

theorem append_left_ne_empty (s t : String) (h : s ≠ "") : s ++ t ≠ "" := by
  intro he
  apply h
  have h2 : s.data ++ t.data = [] := by simpa using congrArg String.data he
  have h3 : s.data = [] := (List.append_eq_nil.mp h2).1
  cases s with
  | mk sd =>
    simp only [String.data] at h3
    rw [show ("" : String) = ⟨[]⟩ from rfl, h3]

/-
Theorems for the dispatch service (claims C1, C2, C7, C9, C4).
-/

/-- C1: for every model id, prompt, model info, optional system prompt
and every outcome of the invoked provider adapter (success, HTTP error,
timeout, provider-SDK error, or any other exception — including the
`ValueError` an unknown provider name raises before the adapter runs),
`call_model` returns a result dictionary and never raises: the result's
status is always `success` or `error`, and it is `success` exactly when
the credential is present, the provider is registered and the adapter
returned normally; every failure mode yields `status = "error"`. -/
theorem call_model_never_raises (env : Env) (mi : ModelInfo) (now : String)
    (adapter : AdapterOutcome) :
    ((call_model env mi now adapter).1.status = "success" ∨
      (call_model env mi now adapter).1.status = "error") ∧
    ((call_model env mi now adapter).1.status = "success" ↔
      (keyPresent env mi.api_key_env = true ∧ mi.provider ∈ knownProviders ∧
        ∃ c u, adapter = .ok c u)) := by
  unfold call_model
  by_cases hk : keyPresent env mi.api_key_env = false
  · simp [hk, errorResponse]
  · by_cases hp : mi.provider ∈ knownProviders
    · cases adapter <;> simp_all [errorResponse] <;> split <;> simp [errorResponse]
    · cases hsc : strContains mi.provider "Google" <;> simp_all [errorResponse]

/-- C2: when the environment variable named by the descriptor's
`api_key_env` is unset, `call_model` returns immediately with
`status = "error"`, `error_type = missing_api_key` (the kind the spec
names `missing_credential`), a response text naming the missing
variable, and it makes zero network calls — the result and the
zero call count are independent of the adapter, which is never
invoked. -/
theorem call_model_missing_credential (env : Env) (mi : ModelInfo) (now : String)
    (adapter : AdapterOutcome) (h : env mi.api_key_env = none) :
    call_model env mi now adapter =
      ({ model_name := mi.name
         provider := mi.provider
         response := "API key not set. Please set " ++ mi.api_key_env ++ " in your .env file."
         timestamp := now
         status := "error"
         usage := none
         error_type := some .missing_api_key }, 0) := by
  have hk : keyPresent env mi.api_key_env = false := by
    unfold keyPresent
    rw [h]
  unfold call_model
  rw [hk]
  rfl

/-- Closed witness for C2 at a concrete unset environment. -/
theorem call_model_missing_credential_w :
    call_model envNone miGemini "2024-11-01T00:00:00" .timedOut =
      ({ model_name := "Gemini 1.5 Pro"
         provider := "Google"
         response := "API key not set. Please set GEMINI_API_KEY in your .env file."
         timestamp := "2024-11-01T00:00:00"
         status := "error"
         usage := none
         error_type := some .missing_api_key }, 0) :=
  call_model_missing_credential envNone miGemini "2024-11-01T00:00:00" .timedOut rfl

/-- C7: every result of `call_model` satisfies status = success XOR
(status = error AND the error-kind field is set), and the response text
is always populated: it equals the adapter's content on success and is
a non-empty human-readable diagnostic string on error. -/
theorem call_model_result_invariant (env : Env) (mi : ModelInfo) (now : String)
    (adapter : AdapterOutcome) :
    (((call_model env mi now adapter).1.status = "success" ∧
        (call_model env mi now adapter).1.error_type = none) ∨
      ((call_model env mi now adapter).1.status = "error" ∧
        (call_model env mi now adapter).1.error_type ≠ none)) ∧
    ((call_model env mi now adapter).1.status = "error" →
      (call_model env mi now adapter).1.response ≠ "") ∧
    (∀ c u, adapter = .ok c u → keyPresent env mi.api_key_env = true →
      mi.provider ∈ knownProviders →
      (call_model env mi now adapter).1.response = c) := by
  unfold call_model
  by_cases hk : keyPresent env mi.api_key_env = false
  · rw [if_pos hk]
    refine ⟨Or.inr ⟨rfl, by simp [errorResponse]⟩, fun _ => ?_, fun c u ha hke _ => ?_⟩
    · apply append_left_ne_empty
      apply append_left_ne_empty
      decide
    · rw [hke] at hk
      cases hk
  · rw [if_neg hk]
    by_cases hp : mi.provider ∈ knownProviders
    · rw [if_neg (fun h => h hp)]
      cases adapter with
      | ok c u => exact ⟨Or.inl ⟨rfl, rfl⟩, by simp, fun c u hcu _ _ => by cases hcu; rfl⟩
      | httpError code body =>
          refine ⟨Or.inr ⟨rfl, by simp [errorResponse]⟩, fun _ => ?_, by simp⟩
          apply append_left_ne_empty
          apply append_left_ne_empty
          apply append_left_ne_empty
          decide
      | timedOut =>
          refine ⟨Or.inr ⟨rfl, by simp [errorResponse]⟩, fun _ => ?_, by simp⟩
          simp [errorResponse]
      | sdkError m =>
          refine ⟨Or.inr ⟨rfl, by simp [errorResponse]⟩, fun _ => ?_, by simp⟩
          simp only [errorResponse]
          apply append_left_ne_empty
          decide
      | raised m =>
          cases hsc : strContains mi.provider "Google"
          · refine ⟨Or.inr ⟨by simp [errorResponse], by simp [errorResponse]⟩,
              fun _ => ?_, by simp⟩
            simp only [Bool.false_eq_true, if_false, errorResponse]
            apply append_left_ne_empty
            decide
          · refine ⟨Or.inr ⟨by simp [errorResponse], by simp [errorResponse]⟩,
              fun _ => ?_, by simp⟩
            simp only [if_pos rfl, errorResponse]
            apply append_left_ne_empty
            decide
    · rw [if_pos hp]
      cases hsc : strContains mi.provider "Google"
      · refine ⟨Or.inr ⟨by simp [errorResponse], by simp [errorResponse]⟩,
          fun _ => ?_, fun c u _ _ hmem => absurd hmem hp⟩
        simp only [Bool.false_eq_true, if_false, errorResponse]
        apply append_left_ne_empty
        decide
      · refine ⟨Or.inr ⟨by simp [errorResponse], by simp [errorResponse]⟩,
          fun _ => ?_, fun c u _ _ hmem => absurd hmem hp⟩
        simp only [if_pos rfl, errorResponse]
        apply append_left_ne_empty
        decide

/-- Closed witness for C7 at concrete inputs, exercising the success
conjunct. -/
theorem call_model_result_invariant_w :
    (call_model envO miGPT "t6" (.ok "hi" [])).1.response = "hi" :=
  (call_model_result_invariant envO miGPT "t6" (.ok "hi" [])).2.2 "hi" [] rfl
    (by decide) (by decide)

/-- C9 counterexample: an error result of `call_model` (here an HTTP 500
failure with the OpenAI credential configured) has NO `usage` key at
all, contradicting the claim that every result carries a usage
mapping. -/
theorem missing_usage_key_on_error :
    (call_model envO miGPT "t1" (.httpError 500 "oops")).1.status = "error" ∧
    (call_model envO miGPT "t1" (.httpError 500 "oops")).1.usage = none := by
  constructor <;> rfl

/-- C9 amended: a `call_model` result carries a `usage` key (holding a
possibly empty mapping) exactly when its status is `success`; error
results carry no usage field. -/
theorem usage_key_iff_error (env : Env) (mi : ModelInfo) (now : String)
    (adapter : AdapterOutcome) :
    ((call_model env mi now adapter).1.usage = none ↔
      (call_model env mi now adapter).1.status = "error") := by
  unfold call_model
  by_cases hk : keyPresent env mi.api_key_env = false
  · simp [hk, errorResponse]
  · by_cases hp : mi.provider ∈ knownProviders
    · cases adapter <;> simp_all [errorResponse] <;> split <;> simp [errorResponse]
    · cases hsc : strContains mi.provider "Google" <;> simp_all [errorResponse]

/-- C4 counterexample: with the Google credential configured, a generic
adapter exception for a Google model is classified as
`google_api_error` — a fifth error kind, distinct from all four kinds
(`transport_error`/`api_error`, `timeout`,
`provider_sdk_error`/`openai_api_error`, `unknown_error`) that the
claim says exhaust the adapter-failure classifications. -/
theorem google_failure_fifth_error_kind :
    (call_model envG miGemini "t2" (.raised "boom")).1.error_type =
        some .google_api_error ∧
    ErrorType.google_api_error ∉
      [ErrorType.api_error, ErrorType.timeout, ErrorType.openai_api_error,
       ErrorType.unknown_error] := by
  exact ⟨rfl, by decide⟩

/-- C4 amended: an adapter failure is classified into exactly one of
FIVE kinds — `api_error` (the spec's `transport_error`), `timeout`,
`openai_api_error` (the spec's `provider_sdk_error`),
`google_api_error` (a Google-specific catch-all for any
otherwise-unclassified exception), `unknown_error` — and an HTTP-level
failure yields `api_error` with the provider's status code and the
response body truncated to its first 200 characters embedded in the
response text. -/
theorem adapter_failure_error_kinds (env : Env) (mi : ModelInfo) (now : String)
    (adapter : AdapterOutcome)
    (hk : keyPresent env mi.api_key_env = true)
    (hp : mi.provider ∈ knownProviders)
    (hfail : ∀ c u, adapter ≠ .ok c u) :
    (∃ k, (call_model env mi now adapter).1.error_type = some k ∧
      k ∈ [ErrorType.api_error, ErrorType.timeout, ErrorType.openai_api_error,
           ErrorType.google_api_error, ErrorType.unknown_error]) ∧
    (∀ code body, adapter = .httpError code body →
      (call_model env mi now adapter).1.error_type = some .api_error ∧
      (call_model env mi now adapter).1.response =
        "API Error: " ++ toString code ++ " - " ++ body.take 200) := by
  unfold call_model
  rw [if_neg (by simp [hk]), if_neg (fun h => h hp)]
  cases adapter with
  | ok c u => exact absurd rfl (hfail c u)
  | httpError code body =>
      exact ⟨⟨.api_error, rfl, by decide⟩, fun c b hcb => by cases hcb; exact ⟨rfl, rfl⟩⟩
  | timedOut => exact ⟨⟨.timeout, rfl, by decide⟩, by simp⟩
  | sdkError m => exact ⟨⟨.openai_api_error, rfl, by decide⟩, by simp⟩
  | raised m =>
      refine ⟨?_, by simp⟩
      cases hsc : strContains mi.provider "Google" <;>
        simp only [hsc, Bool.false_eq_true, if_false, if_true, errorResponse]
      · exact ⟨.unknown_error, rfl, by decide⟩
      · exact ⟨.google_api_error, rfl, by decide⟩

/-- Closed witness for C4 (amended): a mocked HTTP 429 yields
`api_error` with the body embedded after the status code. -/
theorem adapter_failure_error_kinds_w :
    (call_model envO miGPT "t3" (.httpError 429 "Too Many Requests")).1.error_type =
        some .api_error ∧
    (call_model envO miGPT "t3" (.httpError 429 "Too Many Requests")).1.response =
      "API Error: 429 - Too Many Requests" := by
  have h := (adapter_failure_error_kinds envO miGPT "t3"
    (.httpError 429 "Too Many Requests") (by decide) (by decide)
    (fun c u h => by cases h)).2 429 "Too Many Requests" rfl
  refine ⟨h.1, ?_⟩
  rw [h.2]
  decide

/-
Adapter theorems (claims C5, C10, C8, C6).
-/

theorem string_join_cons (s : String) (l : List String) :
    String.join (s :: l) = s ++ String.join l := by
  apply String.ext
  simp [String.join_eq]

/-- Case analysis of the responses-endpoint parser, shared by the C5 and
C10 theorems. -/
theorem openai_parse_cases (r : RResponse) :
    (r.output = [] →
      openai_responses_parse r = .error "No output returned from OpenAI responses API") ∧
    (∀ item rest, r.output = item :: rest → item.content.getD [] = [] →
      openai_responses_parse r = .error "OpenAI responses output missing content") ∧
    (∀ item rest p0 ps, r.output = item :: rest → item.content.getD [] = p0 :: ps →
      openai_responses_parse r =
        .ok (if concatTextual (p0 :: ps) = "" then p0.text.getD ""
             else concatTextual (p0 :: ps), r.usage)) := by
  obtain ⟨out, u⟩ := r
  refine ⟨?_, ?_, ?_⟩
  · rintro rfl
    rfl
  · rintro item rest rfl hc
    simp [openai_responses_parse, hc]
  · rintro item rest p0 ps rfl hc
    simp [openai_responses_parse, hc]

/-- C5 counterexample: a reply whose single content part declares the
non-textual type `refusal` but carries a `text` value yields content
`"I refuse"`, while the concatenation of the textually-typed parts is
the empty string — so the returned content does not equal that
concatenation. -/
theorem responses_content_not_concatenation :
    openai_responses_parse rRefusal = .ok ("I refuse", []) ∧
    concatTextual [{ type := some "refusal", text := some "I refuse" }] = "" ∧
    ("I refuse" : String) ≠ "" := by
  refine ⟨rfl, rfl, by decide⟩

/-- C5 amended: on the responses-shape endpoint the parser fails with a
malformed-response error when `output` is empty or the first output
item carries no content parts, and — whenever the concatenation of the
textually-typed parts of `output[0].content` is non-empty — the reply
content equals that concatenation (when it is empty the code falls back
to the first part's text instead; see the fallback theorem). -/
theorem responses_concatenation (r : RResponse) :
    (r.output = [] →
      openai_responses_parse r = .error "No output returned from OpenAI responses API") ∧
    (∀ item rest, r.output = item :: rest → item.content.getD [] = [] →
      openai_responses_parse r = .error "OpenAI responses output missing content") ∧
    (∀ item rest p0 ps, r.output = item :: rest → item.content.getD [] = p0 :: ps →
      concatTextual (p0 :: ps) ≠ "" →
      openai_responses_parse r = .ok (concatTextual (p0 :: ps), r.usage)) := by
  refine ⟨(openai_parse_cases r).1, (openai_parse_cases r).2.1, ?_⟩
  intro item rest p0 ps hout hc hne
  rw [(openai_parse_cases r).2.2 item rest p0 ps hout hc, if_neg hne]

/-- Closed witness for C5 (amended): two textual parts `"Hello, "` and
`"world"` yield content `"Hello, world"`. -/
theorem responses_concatenation_w :
    openai_responses_parse rHello = .ok ("Hello, world", [("total_tokens", 7)]) := by
  have h := (responses_concatenation rHello).2.2
    { content := some (
        [{ type := some "text", text := some "Hello, " },
         { type := some "output_text", text := some "world" }]) } []
    { type := some "text", text := some "Hello, " }
    [{ type := some "output_text", text := some "world" }] rfl rfl (by decide)
  rw [h]
  have hc : concatTextual
      [{ type := some "text", text := some "Hello, " },
       { type := some "output_text", text := some "world" }] = "Hello, world" := by
    decide
  rw [hc]
  rfl

/-- C10: when `output[0].content` is non-empty but the concatenation of
its textually-typed parts is empty, the parser does not fail: it falls
back to the `text` value of the first content part (the empty string
when that part has no `text` key). -/
theorem responses_fallback (r : RResponse) (item : ROutputItem)
    (rest : List ROutputItem) (p0 : RPart) (ps : List RPart)
    (hout : r.output = item :: rest) (hc : item.content.getD [] = p0 :: ps)
    (hempty : concatTextual (p0 :: ps) = "") :
    openai_responses_parse r = .ok (p0.text.getD "", r.usage) := by
  rw [(openai_parse_cases r).2.2 item rest p0 ps hout hc, if_pos hempty]

/-- Closed witness for C10 at the refusal-part reply. -/
theorem responses_fallback_w :
    openai_responses_parse rRefusal = .ok ("I refuse", []) :=
  responses_fallback rRefusal
    { content := some [{ type := some "refusal", text := some "I refuse" }] } []
    { type := some "refusal", text := some "I refuse" } [] rfl rfl (by decide)

theorem anthropic_fold_append (blocks : List ABlock) (acc : String) :
    blocks.foldl (fun acc b =>
      match b.text with
      | some t => acc ++ t
      | none => acc) acc
      = acc ++ String.join (blocks.filterMap ABlock.text) := by
  induction blocks generalizing acc with
  | nil => simp [String.join]
  | cons b t ih =>
      cases hb : b.text with
      | none => simp [List.foldl, hb, List.filterMap_cons, ih]
      | some s =>
          simp [List.foldl, hb, List.filterMap_cons, ih, string_join_cons,
            String.append_assoc]

/-- C8: a successful Anthropic call returns as content the concatenation
of the texts of all text-bearing blocks of the reply's `content` list,
and a usage mapping with exactly the keys `prompt_tokens`,
`completion_tokens`, `total_tokens`, taken from the provider's
input/output token counts (`0` when absent) with
`total_tokens = prompt_tokens + completion_tokens`. -/
theorem anthropic_reply_normalization (m : AMessage) :
    (anthropic_call_api m).1 = String.join ((m.content.getD []).filterMap ABlock.text) ∧
    ((anthropic_call_api m).2.map Prod.fst =
      ["prompt_tokens", "completion_tokens", "total_tokens"]) ∧
    (∃ pt ct, (anthropic_call_api m).2 =
      [("prompt_tokens", pt), ("completion_tokens", ct), ("total_tokens", pt + ct)] ∧
      pt = (m.usage.map AUsage.input_tokens).getD 0 ∧
      ct = (m.usage.map AUsage.output_tokens).getD 0) := by
  refine ⟨?_, ?_, ?_⟩
  · show anthropicContentText m = _
    unfold anthropicContentText
    cases hc : m.content with
    | none => simp [String.join]
    | some blocks => simpa using anthropic_fold_append blocks ""
  · cases m.usage <;> rfl
  · cases hu : m.usage with
    | none => exact ⟨0, 0, by simp [anthropic_call_api, hu], by simp [hu], by simp [hu]⟩
    | some u =>
        exact ⟨u.input_tokens, u.output_tokens, by simp [anthropic_call_api, hu],
          by simp [hu], by simp [hu]⟩

/-- C6 counterexample: `GoogleProvider.get_models` consults no discovery
call — it returns the static four-model table even where the claimed
behavior (live discovery filtered to generate-content capability, with
static fallback only on failure) would return the empty mapping, namely
under a successful live call listing zero generate-content models. -/
theorem google_models_ignore_discovery :
    googleDiscoverySpec (some []) = [] ∧
    google_get_models ≠ googleDiscoverySpec (some []) := by
  exact ⟨rfl, by decide⟩

/-
Association-list lookup lemmas for the catalog.
-/

theorem dlookup_all (P : ModelInfo → Prop) (d : List (String × ModelInfo))
    (hall : ∀ e ∈ d, P e.2) :
    ∀ m info, dlookup m d = some info → P info := by
  induction d with
  | nil => intro m info h; simp [dlookup] at h
  | cons hd t ih =>
      intro m info h
      obtain ⟨a, b⟩ := hd
      simp only [dlookup] at h
      by_cases hm : a = m
      · rw [if_pos hm] at h
        injection h with hb
        subst hb
        exact hall (a, b) (List.mem_cons_self _ _)
      · rw [if_neg hm] at h
        exact ih (fun e he => hall e (List.mem_cons_of_mem _ he)) m info h

theorem dlookup_isSome_iff (m : String) (d : List (String × ModelInfo)) :
    (dlookup m d).isSome = true ↔ m ∈ d.map Prod.fst := by
  induction d with
  | nil => simp [dlookup]
  | cons hd t ih =>
      obtain ⟨a, b⟩ := hd
      by_cases h : a = m
      · subst h
        simp [dlookup]
      · simp [dlookup, h, ih, Ne.symm h]

theorem dlookup_eq_none_of_not_mem (m : String) (d : List (String × ModelInfo))
    (h : m ∉ d.map Prod.fst) : dlookup m d = none := by
  cases hd : dlookup m d with
  | none => rfl
  | some v =>
      exact absurd ((dlookup_isSome_iff m d).mp (by simp [hd])) h

theorem dlookup_map_entry (m : String) (l : List String) (g : String → ModelInfo) :
    dlookup m (l.map fun id => (id, g id)) = if m ∈ l then some (g m) else none := by
  induction l with
  | nil => simp [dlookup]
  | cons a t ih =>
      by_cases h : a = m
      · subst h
        simp [dlookup]
      · simp [dlookup, h, ih, Ne.symm h]

theorem dlookup_append (m : String) (d e : List (String × ModelInfo)) :
    dlookup m (d ++ e) = (dlookup m d).or (dlookup m e) := by
  induction d with
  | nil => simp [dlookup]
  | cons hd t ih =>
      obtain ⟨a, b⟩ := hd
      by_cases h : a = m <;> simp [dlookup, h, ih, Option.or]

theorem dlookup_filter_keys (m : String) (d e : List (String × ModelInfo)) :
    dlookup m (d.filter fun p => dlookup p.1 e = none) =
      if dlookup m e = none then dlookup m d else none := by
  induction d with
  | nil => simp [dlookup]
  | cons hd t ih =>
      obtain ⟨a, b⟩ := hd
      by_cases hae : dlookup a e = none <;> by_cases ham : a = m
      · subst ham
        simp [List.filter_cons, hae, dlookup, ih]
      · simp [List.filter_cons, hae, dlookup, ham, ih]
      · subst ham
        simp [List.filter_cons, hae, dlookup, ih]
      · simp [List.filter_cons, hae, dlookup, ham, ih]

theorem dlookup_dictUpdate (m : String) (d e : List (String × ModelInfo)) :
    dlookup m (dictUpdate d e) = (dlookup m e).or (dlookup m d) := by
  unfold dictUpdate
  rw [dlookup_append, dlookup_filter_keys]
  cases he : dlookup m e with
  | none => simp [Option.or_none]
  | some v => simp

/-
Per-table facts for the catalog.
-/

/-- On the service path (`available_models = []`) OpenAI's `get_models`
reduces to: filtered live discovery when the key is usable and the call
succeeds, the hardcoded table otherwise. -/
theorem openai_get_models_service (key : String) (disc : DiscoveryOutcome) :
    openai_get_models key disc [] =
      if key ≠ "dummy_key" then
        match disc with
        | .success ids => (ids.filter isChatCapable).map fun id => (id, openaiModelEntry id)
        | .sdkFailure => openaiHardcodedModels
      else openaiHardcodedModels := by
  unfold openai_get_models
  simp

theorem openai_get_models_fst (key : String) (disc : DiscoveryOutcome) :
    (openai_get_models key disc []).map Prod.fst = resolvedIds "OpenAI" key disc := by
  rw [openai_get_models_service]
  unfold resolvedIds
  rw [if_pos rfl]
  by_cases hkey : key ≠ "dummy_key"
  · rw [if_pos hkey, if_pos hkey]
    cases disc with
    | success ids => simp [List.map_map, Function.comp_def]
    | sdkFailure => rfl
  · rw [if_neg hkey, if_neg hkey]

theorem openai_get_models_provider (key : String) (disc : DiscoveryOutcome) :
    ∀ e ∈ openai_get_models key disc [], e.2.provider = "OpenAI" := by
  rw [openai_get_models_service]
  intro e he
  split at he
  · cases disc with
    | success ids =>
        obtain ⟨id, -, rfl⟩ := List.mem_map.mp he
        rfl
    | sdkFailure =>
        simp only [openaiHardcodedModels, List.mem_cons, List.not_mem_nil, or_false] at he
        rcases he with rfl | rfl <;> rfl
  · simp only [openaiHardcodedModels, List.mem_cons, List.not_mem_nil, or_false] at he
    rcases he with rfl | rfl <;> rfl

theorem resolved_openai_chat (key : String) (disc : DiscoveryOutcome) (m : String)
    (h : m ∈ resolvedIds "OpenAI" key disc) : isChatCapable m = true := by
  unfold resolvedIds at h
  rw [if_pos rfl] at h
  have hhard : ∀ x ∈ openaiHardcodedModels.map Prod.fst, isChatCapable x = true := by decide
  by_cases hkey : key ≠ "dummy_key"
  · rw [if_pos hkey] at h
    cases disc with
    | success ids => exact (List.mem_filter.mp h).2
    | sdkFailure => exact hhard m h
  · rw [if_neg hkey] at h
    exact hhard m h

theorem anthropic_keys_not_chat :
    ∀ x ∈ anthropic_models.map Prod.fst, isChatCapable x = false := by decide

theorem google_keys_not_chat :
    ∀ x ∈ google_get_models.map Prod.fst, isChatCapable x = false := by decide

theorem xai_keys_not_chat :
    ∀ x ∈ xai_models.map Prod.fst, isChatCapable x = false := by decide

theorem anthropic_google_disjoint :
    ∀ x ∈ anthropic_models.map Prod.fst, x ∉ google_get_models.map Prod.fst := by decide

theorem anthropic_xai_disjoint :
    ∀ x ∈ anthropic_models.map Prod.fst, x ∉ xai_models.map Prod.fst := by decide

theorem google_xai_disjoint :
    ∀ x ∈ google_get_models.map Prod.fst, x ∉ xai_models.map Prod.fst := by decide

theorem anthropic_models_provider : ∀ e ∈ anthropic_models, e.2.provider = "Anthropic" := by
  decide

theorem google_models_provider : ∀ e ∈ google_get_models, e.2.provider = "Google" := by
  decide

theorem xai_models_provider : ∀ e ∈ xai_models, e.2.provider = "xAI" := by
  decide

/-
Or-chain lemmas for the merged catalog lookup.
-/

theorem guarded_some {c : Prop} [Decidable c] {x : Option ModelInfo} {i : ModelInfo}
    (h : (if c then x else none) = some i) : c ∧ x = some i := by
  split at h
  · exact ⟨by assumption, h⟩
  · cases h

theorem guarded_none {c : Prop} [Decidable c] {T : List (String × ModelInfo)} {m : String}
    (hm : m ∉ T.map Prod.fst) :
    (if c then dlookup m T else none) = none := by
  split
  · exact dlookup_eq_none_of_not_mem m T hm
  · rfl

theorem guarded_provider {c : Prop} [Decidable c] {T : List (String × ModelInfo)}
    {q : String} (hprov : ∀ e ∈ T, e.2.provider = q) (m : String) :
    ∀ i, (if c then dlookup m T else none) = some i → i.provider = q := by
  intro i h
  obtain ⟨-, h2⟩ := guarded_some h
  exact dlookup_all (fun info => info.provider = q) T hprov m i h2

theorem guarded_mem_iff (c : Prop) [Decidable c] (T : List (String × ModelInfo))
    (q : String) (hprov : ∀ e ∈ T, e.2.provider = q) (m : String) :
    (∃ info, (if c then dlookup m T else none) = some info ∧ info.provider = q) ↔
      (c ∧ m ∈ T.map Prod.fst) := by
  constructor
  · rintro ⟨info, hinfo, -⟩
    obtain ⟨hc, h2⟩ := guarded_some hinfo
    exact ⟨hc, (dlookup_isSome_iff m T).mp (by simp [h2])⟩
  · rintro ⟨hc, hm⟩
    obtain ⟨info, hinfo⟩ := Option.isSome_iff_exists.mp ((dlookup_isSome_iff m T).mpr hm)
    exact ⟨info, by rw [if_pos hc]; exact hinfo,
      dlookup_all (fun i => i.provider = q) T hprov m info hinfo⟩

theorem or_skip_fwd {x y : Option ModelInfo} {p : String}
    (hx : ∀ i, x = some i → ¬ i.provider = p)
    (h : ∃ info, x.or y = some info ∧ info.provider = p) :
    ∃ info, y = some info ∧ info.provider = p := by
  obtain ⟨info, hor, hprov⟩ := h
  rcases Option.or_eq_some.mp hor with hxs | ⟨-, hys⟩
  · exact absurd hprov (hx info hxs)
  · exact ⟨info, hys, hprov⟩

theorem or_provider {x y : Option ModelInfo} {P : ModelInfo → Prop}
    (hx : ∀ i, x = some i → P i) (hy : ∀ i, y = some i → P i) :
    ∀ i, x.or y = some i → P i := by
  intro i h
  rcases Option.or_eq_some.mp h with hxs | ⟨-, hys⟩
  · exact hx i hxs
  · exact hy i hys

/-- The merged catalog lookup is the override chain of the four
per-provider guarded lookups, later providers overriding earlier
ones. -/
theorem merged_lookup (env : Env) (disc : DiscoveryOutcome) (m : String) :
    dlookup m (get_available_models env disc) =
      ((if keyPresent env "XAI_API_KEY" = true then dlookup m xai_models else none).or
       ((if keyPresent env "GEMINI_API_KEY" = true then dlookup m google_get_models else none).or
        ((if keyPresent env "ANTHROPIC_API_KEY" = true then dlookup m anthropic_models else none).or
         (if keyPresent env "OPENAI_API_KEY" = true then
            dlookup m (openai_get_models ((env "OPENAI_API_KEY").getD "") disc []) else none)))) := by
  have e1 : envKeyFor "OpenAI" = "OPENAI_API_KEY" := by decide
  have e2 : envKeyFor "Anthropic" = "ANTHROPIC_API_KEY" := by decide
  have e3 : envKeyFor "Google" = "GEMINI_API_KEY" := by decide
  have e4 : envKeyFor "xAI" = "XAI_API_KEY" := by decide
  have hnil : dlookup m [] = none := rfl
  by_cases k1 : keyPresent env "OPENAI_API_KEY" = true <;>
    by_cases k2 : keyPresent env "ANTHROPIC_API_KEY" = true <;>
      by_cases k3 : keyPresent env "GEMINI_API_KEY" = true <;>
        by_cases k4 : keyPresent env "XAI_API_KEY" = true <;>
          simp [get_available_models, knownProviders, modelsForProvider,
            e1, e2, e3, e4, k1, k2, k3, k4, dlookup_dictUpdate, hnil]

/-- C6 amended: `GoogleProvider.get_models` returns the static table of
exactly the four Gemini models, each tagged provider `Google` and
credential variable `GEMINI_API_KEY`; it consults no live discovery
call. -/
theorem google_models_static (m : String) :
    ((dlookup m google_get_models).isSome = true ↔
      m ∈ ["gemini-2.0-flash-exp", "gemini-1.5-pro", "gemini-1.5-flash", "gemini-1.0-pro"]) ∧
    (∀ info, dlookup m google_get_models = some info →
      info.provider = "Google" ∧ info.api_key_env = "GEMINI_API_KEY") := by
  constructor
  · rw [dlookup_isSome_iff,
      show google_get_models.map Prod.fst =
        ["gemini-2.0-flash-exp", "gemini-1.5-pro", "gemini-1.5-flash", "gemini-1.0-pro"]
      from rfl]
  · intro info h
    exact dlookup_all
      (fun i => i.provider = "Google" ∧ i.api_key_env = "GEMINI_API_KEY")
      google_get_models (by decide) m info h

/-- Closed witness for C6 (amended): `gemini-1.5-pro` is in the static
Google table. -/
theorem google_models_static_w :
    (dlookup "gemini-1.5-pro" google_get_models).isSome = true :=
  (google_models_static "gemini-1.5-pro").1.mpr (by decide)

/-- C3 counterexample: with the OpenAI credential set and live discovery
succeeding with `["gpt-4o"]`, the statically-listed `gpt-3.5-turbo`
satisfies the claim's right-hand side (credential configured and static
config lists it under OpenAI) yet is NOT in the catalog — a successful
discovery replaces the static configuration instead of being unioned
with it, so the claimed if-and-only-if fails. -/
theorem catalog_membership_not_claimed :
    ¬ claimC3Property envO (.success ["gpt-4o"]) := by
  intro h
  have h2 := (h "OpenAI" (by decide) "gpt-3.5-turbo").mpr
    ⟨by decide, Or.inr (by decide)⟩
  obtain ⟨info, hinfo, -⟩ := h2
  have hnone : dlookup "gpt-3.5-turbo" (get_available_models envO (.success ["gpt-4o"])) = none := by
    rw [merged_lookup]
    decide
  rw [hnone] at hinfo
  cases hinfo

theorem guarded_not_provider {c : Prop} [Decidable c] {T : List (String × ModelInfo)}
    {q : String} (hprov : ∀ e ∈ T, e.2.provider = q) {p : String} (hqp : q ≠ p) (m : String) :
    ∀ i, (if c then dlookup m T else none) = some i → ¬ i.provider = p := by
  intro i h hip
  rw [guarded_provider hprov m i h] at hip
  exact hqp hip

theorem or_take {x y : Option ModelInfo} {p : String}
    (hy : ∀ i, y = some i → ¬ i.provider = p) :
    (∃ info, x.or y = some info ∧ info.provider = p) ↔
      (∃ info, x = some info ∧ info.provider = p) := by
  constructor
  · rintro ⟨info, hor, hprov⟩
    rcases Option.or_eq_some.mp hor with hxs | ⟨-, hys⟩
    · exact ⟨info, hxs, hprov⟩
    · exact absurd hprov (hy info hys)
  · rintro ⟨info, hxs, hprov⟩
    exact ⟨info, by rw [hxs]; rfl, hprov⟩

/-- C3 amended: a model id `m` belonging to provider `p` appears in
`get_available_models` if and only if `p`'s credential variable is set
(and non-empty) AND `m` is among the ids `p` actually resolves: for
OpenAI, the chat-capable-filtered live discovery result when the key is
usable and the discovery call succeeds, and the hardcoded static table
otherwise (a successful discovery REPLACES the static configuration
rather than being unioned with it); for Anthropic, Google and xAI,
always the static table.  In particular no model outside both sources
ever appears, and a provider can contribute an empty mapping (a
successful discovery with no chat-capable model) without that being an
error. -/
theorem catalog_membership (env : Env) (disc : DiscoveryOutcome) (p m : String)
    (hp : p ∈ knownProviders) :
    memCatalog (get_available_models env disc) m p ↔
      (keyPresent env (envKeyFor p) = true ∧
        m ∈ resolvedIds p ((env (envKeyFor p)).getD "") disc) := by
  have e1 : envKeyFor "OpenAI" = "OPENAI_API_KEY" := by decide
  have e2 : envKeyFor "Anthropic" = "ANTHROPIC_API_KEY" := by decide
  have e3 : envKeyFor "Google" = "GEMINI_API_KEY" := by decide
  have e4 : envKeyFor "xAI" = "XAI_API_KEY" := by decide
  unfold memCatalog
  simp only [knownProviders, List.mem_cons, List.not_mem_nil, or_false] at hp
  rcases hp with rfl | rfl | rfl | rfl
  · -- p = "OpenAI"
    rw [e1, merged_lookup]
    constructor
    · intro h
      have h2 := or_skip_fwd (guarded_not_provider xai_models_provider (by decide) m) h
      have h3 := or_skip_fwd (guarded_not_provider google_models_provider (by decide) m) h2
      have h4 := or_skip_fwd (guarded_not_provider anthropic_models_provider (by decide) m) h3
      have h5 := (guarded_mem_iff _ _ "OpenAI"
        (openai_get_models_provider ((env "OPENAI_API_KEY").getD "") disc) m).mp h4
      rwa [openai_get_models_fst] at h5
    · rintro ⟨hk, hm⟩
      have hchat := resolved_openai_chat ((env "OPENAI_API_KEY").getD "") disc m hm
      have hmX : m ∉ xai_models.map Prod.fst := fun hmem => by
        rw [xai_keys_not_chat m hmem] at hchat
        exact Bool.noConfusion hchat
      have hmG : m ∉ google_get_models.map Prod.fst := fun hmem => by
        rw [google_keys_not_chat m hmem] at hchat
        exact Bool.noConfusion hchat
      have hmA : m ∉ anthropic_models.map Prod.fst := fun hmem => by
        rw [anthropic_keys_not_chat m hmem] at hchat
        exact Bool.noConfusion hchat
      rw [guarded_none hmX, guarded_none hmG, guarded_none hmA,
        Option.none_or, Option.none_or, Option.none_or]
      exact (guarded_mem_iff _ _ "OpenAI"
        (openai_get_models_provider ((env "OPENAI_API_KEY").getD "") disc) m).mpr
        ⟨hk, by rw [openai_get_models_fst]; exact hm⟩
  · -- p = "Anthropic"
    rw [e2, merged_lookup]
    have hres : resolvedIds "Anthropic" ((env "ANTHROPIC_API_KEY").getD "") disc =
        anthropic_models.map Prod.fst := rfl
    rw [hres]
    constructor
    · intro h
      have h2 := or_skip_fwd (guarded_not_provider xai_models_provider (by decide) m) h
      have h3 := or_skip_fwd (guarded_not_provider google_models_provider (by decide) m) h2
      have h4 := (or_take (guarded_not_provider
        (openai_get_models_provider ((env "OPENAI_API_KEY").getD "") disc) (by decide) m)).mp h3
      exact (guarded_mem_iff _ _ "Anthropic" anthropic_models_provider m).mp h4
    · rintro ⟨hk, hm⟩
      have hmG : m ∉ google_get_models.map Prod.fst := anthropic_google_disjoint m hm
      have hmX : m ∉ xai_models.map Prod.fst := anthropic_xai_disjoint m hm
      obtain ⟨infoA, hA, hprovA⟩ :=
        (guarded_mem_iff (keyPresent env "ANTHROPIC_API_KEY" = true) anthropic_models
          "Anthropic" anthropic_models_provider m).mpr ⟨hk, hm⟩
      exact ⟨infoA, by rw [guarded_none hmX, guarded_none hmG, Option.none_or,
        Option.none_or, hA]; rfl, hprovA⟩
  · -- p = "Google"
    rw [e3, merged_lookup]
    have hres : resolvedIds "Google" ((env "GEMINI_API_KEY").getD "") disc =
        google_get_models.map Prod.fst := rfl
    rw [hres]
    constructor
    · intro h
      have h2 := or_skip_fwd (guarded_not_provider xai_models_provider (by decide) m) h
      have h3 := (or_take (or_provider
        (guarded_not_provider anthropic_models_provider (by decide) m)
        (guarded_not_provider
          (openai_get_models_provider ((env "OPENAI_API_KEY").getD "") disc) (by decide) m))).mp h2
      exact (guarded_mem_iff _ _ "Google" google_models_provider m).mp h3
    · rintro ⟨hk, hm⟩
      have hmX : m ∉ xai_models.map Prod.fst := google_xai_disjoint m hm
      obtain ⟨infoG, hG, hprovG⟩ :=
        (guarded_mem_iff (keyPresent env "GEMINI_API_KEY" = true) google_get_models
          "Google" google_models_provider m).mpr ⟨hk, hm⟩
      exact ⟨infoG, by rw [guarded_none hmX, Option.none_or, hG]; rfl, hprovG⟩
  · -- p = "xAI"
    rw [e4, merged_lookup]
    have hres : resolvedIds "xAI" ((env "XAI_API_KEY").getD "") disc =
        xai_models.map Prod.fst := rfl
    rw [hres]
    constructor
    · intro h
      have h2 := (or_take (or_provider
        (guarded_not_provider google_models_provider (by decide) m)
        (or_provider
          (guarded_not_provider anthropic_models_provider (by decide) m)
          (guarded_not_provider
            (openai_get_models_provider ((env "OPENAI_API_KEY").getD "") disc)
            (by decide) m)))).mp h
      exact (guarded_mem_iff _ _ "xAI" xai_models_provider m).mp h2
    · rintro ⟨hk, hm⟩
      obtain ⟨infoX, hX, hprovX⟩ :=
        (guarded_mem_iff (keyPresent env "XAI_API_KEY" = true) xai_models
          "xAI" xai_models_provider m).mpr ⟨hk, hm⟩
      exact ⟨infoX, by rw [hX]; rfl, hprovX⟩

/-- Closed witness for C3 (amended): with only the Google credential
configured, `gemini-1.5-pro` is in the catalog under provider
`Google`. -/
theorem catalog_membership_w :
    memCatalog (get_available_models envG .sdkFailure) "gemini-1.5-pro" "Google" :=
  (catalog_membership envG .sdkFailure "Google" "gemini-1.5-pro" (by decide)).mpr
    ⟨by decide, by decide⟩

end LLMCompare
